import Mathlib

/-!
# FinOS dashboard page — verification of the client-side logic

Shallow embedding of the logic in `src/app/page.tsx` (and its variant
`src/unnamed/part_000`, whose handler bodies are textually identical; only the
shape of `DashboardData` differs).  JS strings are modelled as `List Char`
where character-level operations matter, JS numbers as `ℚ` (they are only
carried, compared with `≥`/`<`, never subjected to float rounding here), and
the asynchronous handlers as pure state transformers parameterised by the
outcome of the single awaited agent call.
-/

/-- The whitespace test used by JavaScript `String.prototype.trim`, restricted
to the code points that can occur in the texts of interest (ASCII whitespace
plus NBSP and the BOM). -/
def isJsWs (c : Char) : Bool :=
  c = ' ' || c = '\t' || c = '\n' || c = '\r' || c = '\x0b' || c = '\x0c' ||
  c = '\u00A0' || c = '\uFEFF'

/-- JavaScript `text.trim()`: strip `isJsWs` characters from both ends. -/
def jsTrim (cs : List Char) : List Char :=
  (((cs.dropWhile isJsWs).reverse.dropWhile isJsWs)).reverse

/-- Worker for `jsSplit`: `acc` holds the (reversed) characters of the piece
being built. -/
def jsSplitAux (sep : Char) : List Char → List Char → List (List Char)
  | acc, [] => [acc.reverse]
  | acc, c :: rest =>
    if c = sep then acc.reverse :: jsSplitAux sep [] rest
    else jsSplitAux sep (c :: acc) rest

/-- JavaScript `text.split(sep)` for a one-character separator: every
occurrence of `sep` starts a new piece, empty pieces are kept, and the empty
string splits to `[""]`. -/
def jsSplit (sep : Char) (cs : List Char) : List (List Char) :=
  jsSplitAux sep [] cs

/-- `parseCSV` from the source: `text.trim().split('\n').length - 1`
(subtract the header row).  The result is an `Int` because the source comment
and the spec contemplate negative counts. -/
def parseCSV (text : List Char) : Int :=
  ((jsSplit '\n' (jsTrim text)).length : Int) - 1

/-- Joins lines with a separator character, the inverse construction used to
state "a CSV text consisting of a header line plus data lines". -/
def joinLines (sep : Char) : List (List Char) → List Char
  | [] => []
  | [l] => l
  | l :: l2 :: ls => l ++ sep :: joinLines sep (l2 :: ls)

/-- A CSV text made of one header line and `rows.length` data lines,
separated by single newlines. -/
def mkCSVText (header : List Char) (rows : List (List Char)) : List Char :=
  joinLines '\n' (header :: rows)

/-! ## Data model (TypeScript interfaces of `src/app/page.tsx`) -/

/-- `interface CategorySummary` (six-category variant). -/
structure CategorySummary where
  total_amount : ℚ
  percentage : ℚ
  transaction_count : ℚ
deriving DecidableEq

/-- `interface Transaction`. -/
structure Transaction where
  date : String
  merchant : String
  amount : ℚ
  category : String
  subcategory : String
deriving DecidableEq

/-- `interface MerchantBreakdown`. -/
structure MerchantBreakdown where
  merchant : String
  category : String
  total_amount : ℚ
  transaction_count : ℚ
  percentage_of_category : ℚ
  insights : String
deriving DecidableEq

/-- `interface CutBackOpportunity`. -/
structure CutBackOpportunity where
  area : String
  current_spend : ℚ
  recommended_spend : ℚ
  potential_savings : ℚ
  actionable_advice : String
deriving DecidableEq

/-- The anonymous `impulsive_purchases` / `high_cost_dining` record shape
inside `HabitAudit`. -/
structure SpendSummary where
  count : ℚ
  total_amount : ℚ
  description : String
deriving DecidableEq

/-- The anonymous `subscription_analysis` record shape inside `HabitAudit`. -/
structure SubscriptionAnalysis where
  total_subscriptions : ℚ
  monthly_cost : ℚ
  redundant_subscriptions : List String
deriving DecidableEq

/-- `interface HabitAudit`. -/
structure HabitAudit where
  impulsive_purchases : SpendSummary
  high_cost_dining : SpendSummary
  subscription_analysis : SubscriptionAnalysis
  cut_back_opportunities : List CutBackOpportunity
deriving DecidableEq

/-- The anonymous six-field `category_summary` record inside `DashboardData`. -/
structure CategorySummaryMap where
  dining : CategorySummary
  shopping : CategorySummary
  bill_payments : CategorySummary
  travel : CategorySummary
  investments : CategorySummary
  others : CategorySummary
deriving DecidableEq

/-- `interface DashboardData` (six-category variant of `src/app/page.tsx`). -/
structure DashboardData where
  financial_alignment_score : ℚ
  total_transactions : ℚ
  total_amount : ℚ
  category_summary : CategorySummaryMap
  merchant_breakdown : List MerchantBreakdown
  habit_audit : HabitAudit
  transactions : List Transaction
  insights : List String
  recommendations : List String
deriving DecidableEq

/-- `interface ManagerAgentResponse`.  The response body is loosely typed at
runtime: the code guards `managerResponse.dashboard_data` and falls back on
`managerResponse.insights || []`, so both are `Option` here;
`query_response?` is optional in the interface itself. -/
structure ManagerAgentResponse where
  workflow_status : String
  dashboard_data : Option DashboardData
  query_response : Option String
  insights : Option (List String)
deriving DecidableEq

/-- The `role: 'user' | 'assistant'` union of `interface ChatMessage`. -/
inductive ChatRole where
  | user
  | assistant
deriving DecidableEq, BEq

/-- `interface ChatMessage`. -/
structure ChatMessage where
  role : ChatRole
  content : String
deriving DecidableEq, BEq

/-- A `File` object as the handlers consume it: its MIME `type` and the text
the `FileReader` decodes from it (plus the display name). -/
structure JSFile where
  name : String
  type : String
  content : List Char
deriving DecidableEq

/-- The `{success, response?: {status, result}}` value returned by
`callAIAgent`: either the failure tag, or `success: true` carrying a
response with its `status` string and `result` body. -/
inductive AgentResult where
  | failure
  | success (status : String) (result : ManagerAgentResponse)
deriving DecidableEq

/-- Outcome of one awaited `callAIAgent(...)` expression: the promise either
rejects (`throws`, landing in the `catch` block) or resolves to an
`AgentResult`. -/
inductive AgentOutcome where
  | throws
  | returns (r : AgentResult)
deriving DecidableEq

/-- The ten `useState` hooks of the `Home` component. -/
structure AppState where
  file : Option JSFile
  csvData : List Char
  rowCount : Int
  analyzing : Bool
  analysisStage : String
  dashboardData : Option DashboardData
  insights : List String
  chatMessages : List ChatMessage
  chatInput : String
  chatLoading : Bool
deriving DecidableEq

/-! ## Handlers (the event handlers of the `Home` component)

Each asynchronous handler suspends only at the single awaited agent call (or
at the `FileReader` decode), so it is embedded as a pure state transformer:
the outcome of the awaited step is an explicit argument and the handler
returns the state after all its `set*` calls have landed. -/

/-- JavaScript `x || fallback` for an optional string: `undefined` and the
empty string are falsy. -/
def orElseStr (s : Option String) (fallback : String) : String :=
  match s with
  | some v => if v = "" then fallback else v
  | none => fallback

/-- `handleFileChange`: `files` is `e.target.files` (nullable list); the
selected file is `files?.[0]`.  A present file typed `text/csv` is stored and
its decoded text and row count land in state; anything else leaves the state
untouched. -/
def handleFileChange (st : AppState) (files : Option (List JSFile)) : AppState :=
  match files.bind List.head? with
  | some selectedFile =>
    if selectedFile.type = "text/csv" then
      { st with file := some selectedFile,
                csvData := selectedFile.content,
                rowCount := parseCSV selectedFile.content }
    else st
  | none => st

/-- `handleDrop`: identical accept path, the file comes from
`e.dataTransfer.files[0]`. -/
def handleDrop (st : AppState) (files : List JSFile) : AppState :=
  match files.head? with
  | some droppedFile =>
    if droppedFile.type = "text/csv" then
      { st with file := some droppedFile,
                csvData := droppedFile.content,
                rowCount := parseCSV droppedFile.content }
    else st
  | none => st

/-- `analyzeTransactions`: early return on empty `csvData`; otherwise the
loading flag and first stage label are set, the agent is called, a successful
`status === 'success'` response with a present `dashboard_data` replaces the
report and insights, every other outcome changes nothing, and the `finally`
block clears the loading flag and stage label.  (The two staged `setTimeout`
labels only affect `analysisStage`, which the `finally` block overwrites in
the final state modelled here.) -/
def analyzeTransactions (st : AppState) (outcome : AgentOutcome) : AppState :=
  if st.csvData = [] then st
  else
    let st1 := { st with analyzing := true, analysisStage := "Cleaning data..." }
    match outcome with
    | .throws => { st1 with analyzing := false, analysisStage := "" }
    | .returns r =>
      let st2 :=
        match r with
        | .success status mr =>
          if status = "success" then
            match mr.dashboard_data with
            | some dd =>
              { st1 with dashboardData := some dd,
                         insights := mr.insights.getD [] }
            | none => st1
          else st1
        | .failure => st1
      { st2 with analyzing := false, analysisStage := "" }

/-- The fixed error turn appended on the chat failure path. -/
def chatErrorText : String := "Sorry, I encountered an error processing your query."

/-- `handleSendMessage`: early return when the trimmed input is empty or no
report exists; otherwise the user turn is appended and the input cleared
before the call; a successful response appends an assistant turn carrying
`query_response || 'Analysis complete.'`, a returned failure appends the
fixed error turn, a thrown error is only logged, and `finally` clears the
chat loading flag. -/
def handleSendMessage (st : AppState) (outcome : AgentOutcome) : AppState :=
  if jsTrim st.chatInput.data = [] ∨ st.dashboardData = none then st
  else
    let userMessage : ChatMessage := ⟨.user, st.chatInput⟩
    let st1 := { st with chatMessages := st.chatMessages ++ [userMessage],
                         chatInput := "",
                         chatLoading := true }
    match outcome with
    | .throws => { st1 with chatLoading := false }
    | .returns r =>
      let st2 :=
        match r with
        | .success status mr =>
          if status = "success" then
            let responseText := orElseStr mr.query_response "Analysis complete."
            { st1 with chatMessages :=
                st1.chatMessages ++ [ChatMessage.mk .assistant responseText] }
          else
            { st1 with chatMessages :=
                st1.chatMessages ++ [ChatMessage.mk .assistant chatErrorText] }
        | .failure =>
          { st1 with chatMessages :=
              st1.chatMessages ++ [ChatMessage.mk .assistant chatErrorText] }
      { st2 with chatLoading := false }

/-- `getScoreColor` from the source: teal at 75 and above, gold at 50 and
above, red below. -/
def getScoreColor (score : ℚ) : String :=
  if score ≥ 75 then "#00bfa5"
  else if score ≥ 50 then "#ffd700"
  else "#ff5252"

/-- ASCII lowering, the fragment of JS `toLowerCase` exercised here. -/
def asciiToLower (c : Char) : Char :=
  if 'A' ≤ c ∧ c ≤ 'Z' then Char.ofNat (c.toNat + 32) else c

/-- JS `s.replace(' ', '_')` with a string pattern: only the first space is
replaced. -/
def replaceFirstSpace : List Char → List Char
  | [] => []
  | c :: rest => if c = ' ' then '_' :: rest else c :: replaceFirstSpace rest

/-- The lookup key built in `getCategoryColor`:
`category.toLowerCase().replace(' ', '_')`. -/
def normalizeCategory (cs : List Char) : List Char :=
  replaceFirstSpace (cs.map asciiToLower)

/-- The `colors` object literal of `getCategoryColor`, as an association
list in source order. -/
def categoryColors : List (List Char × String) :=
  [("dining".data, "#ff6b6b"),
   ("shopping".data, "#4ecdc4"),
   ("bill_payments".data, "#45b7d1"),
   ("travel".data, "#96ceb4"),
   ("investments".data, "#1a237e"),
   ("others".data, "#95a5a6")]

/-- `getCategoryColor`: index the `colors` object with the normalized key and
fall back to `'#95a5a6'` (`colors[key] || '#95a5a6'`; every stored color is a
non-empty string, hence truthy). -/
def getCategoryColor (category : String) : String :=
  (categoryColors.lookup (normalizeCategory category.data)).getD "#95a5a6"

/-- The chat/analysis failure discrimination on a returned result: the
failure tag, or a response whose `status` is not `'success'` (the negation
of the guard `result.success && result.response.status === 'success'`). -/
def returnedFailure : AgentResult → Bool
  | .failure => true
  | .success status _ => status != "success"

/-- A failed agent call as the spec's error taxonomy describes it: the call
throws, or it returns a failure outcome. -/
def callFailed : AgentOutcome → Bool
  | .throws => true
  | .returns r => returnedFailure r

/-! ## Concrete sample values (used to instantiate the theorems below) -/

/-- A zeroed category summary. -/
def sampleSummary : CategorySummary := ⟨0, 0, 0⟩

/-- A minimal habit audit. -/
def sampleHabitAudit : HabitAudit := ⟨⟨0, 0, ""⟩, ⟨0, 0, ""⟩, ⟨0, 0, []⟩, []⟩

/-- A minimal complete dashboard payload. -/
def sampleDashboard : DashboardData :=
  ⟨80, 2, 100,
   ⟨sampleSummary, sampleSummary, sampleSummary, sampleSummary, sampleSummary,
    sampleSummary⟩,
   [], sampleHabitAudit, [], [], []⟩

/-- The initial component state (the `useState` initial values). -/
def initialState : AppState :=
  { file := none, csvData := [], rowCount := 0, analyzing := false,
    analysisStage := "", dashboardData := none, insights := [],
    chatMessages := [], chatInput := "", chatLoading := false }

/-- A state in which a two-line CSV has been loaded. -/
def loadedState : AppState :=
  { initialState with
      file := some ⟨"tx.csv", "text/csv", "h\na".data⟩,
      csvData := "h\na".data, rowCount := 1 }

/-- A state with a report present and a pending chat question. -/
def chatReadyState : AppState :=
  { loadedState with
      dashboardData := some sampleDashboard,
      chatInput := "What was my top spend?" }

/-- A file whose MIME type is not `text/csv`. -/
def plainTextFile : JSFile := ⟨"notes.txt", "text/plain", "hello".data⟩

/-- A successful analysis payload carrying a dashboard and insights. -/
def sampleResponse : ManagerAgentResponse :=
  ⟨"completed", some sampleDashboard, none, some ["i1"]⟩

/-- A chat payload whose `query_response` is present but empty. -/
def emptyQueryResponse : ManagerAgentResponse :=
  ⟨"completed", none, some "", none⟩

/-- A chat payload with a non-empty `query_response`. -/
def queryResponseSample : ManagerAgentResponse :=
  ⟨"completed", none, some "You spent most at X.", none⟩

/-! ## Helper lemmas -/

/-- Splitting skips over a separator-free block in one accumulator sweep. -/
theorem jsSplitAux_append_no_sep (sep : Char) (l : List Char) :
    ∀ (acc rest : List Char), sep ∉ l →
      jsSplitAux sep acc (l ++ rest) = jsSplitAux sep (l.reverse ++ acc) rest := by
  induction l with
  | nil => intro acc rest _; simp
  | cons c l ih =>
    intro acc rest h
    have hc : c ≠ sep := by
      intro hch; exact h (hch ▸ List.mem_cons_self c l)
    have hl : sep ∉ l := fun hm => h (List.mem_cons_of_mem _ hm)
    simp only [List.cons_append, jsSplitAux, if_neg hc, List.append_eq]
    rw [ih (c :: acc) rest hl]
    simp [List.append_assoc]

/-- `split` undoes `joinLines` when no line contains the separator. -/
theorem jsSplit_joinLines (sep : Char) :
    ∀ (lines : List (List Char)), lines ≠ [] → (∀ l ∈ lines, sep ∉ l) →
      jsSplit sep (joinLines sep lines) = lines
  | [], h, _ => absurd rfl h
  | [l], _, hl => by
    have hsep : sep ∉ l := hl l (List.mem_cons_self _ _)
    have h1 := jsSplitAux_append_no_sep sep l [] [] hsep
    simp only [List.append_nil] at h1
    show jsSplit sep (joinLines sep [l]) = [l]
    simp only [joinLines]
    unfold jsSplit
    rw [h1]
    simp [jsSplitAux]
  | l :: l2 :: ls, _, hl => by
    have hsep : sep ∉ l := hl l (List.mem_cons_self _ _)
    have hrest : ∀ x ∈ l2 :: ls, sep ∉ x := fun x hx => hl x (List.mem_cons_of_mem _ hx)
    show jsSplit sep (joinLines sep (l :: l2 :: ls)) = l :: l2 :: ls
    simp only [joinLines]
    unfold jsSplit
    rw [jsSplitAux_append_no_sep sep l [] _ hsep]
    simp only [List.append_nil, jsSplitAux, if_pos rfl, List.reverse_reverse]
    rw [show jsSplitAux sep [] (joinLines sep (l2 :: ls))
          = jsSplit sep (joinLines sep (l2 :: ls)) from rfl]
    rw [jsSplit_joinLines sep (l2 :: ls) (by simp) hrest]
    simp

/-- Trimming ignores an all-whitespace prefix. -/
theorem jsTrim_ws_append (pre s : List Char) (h : ∀ c ∈ pre, isJsWs c) :
    jsTrim (pre ++ s) = jsTrim s := by
  unfold jsTrim
  rw [List.dropWhile_append_of_pos h]

/-- Trimming ignores an all-whitespace suffix. -/
theorem jsTrim_append_ws (s post : List Char) (h : ∀ c ∈ post, isJsWs c) :
    jsTrim (s ++ post) = jsTrim s := by
  unfold jsTrim
  rw [List.dropWhile_append]
  by_cases h0 : (s.dropWhile isJsWs).isEmpty
  · rw [if_pos h0]
    have h1 : List.dropWhile isJsWs post = [] := List.dropWhile_eq_nil_iff.mpr h
    have h2 : List.dropWhile isJsWs s = [] := by
      simpa [List.isEmpty_iff] using h0
    rw [h1, h2]
  · rw [if_neg h0, List.reverse_append,
        List.dropWhile_append_of_pos (by intro c hc; exact h c (List.mem_reverse.mp hc))]

/-- A key absent from the first components of an association list looks up to
`none`. -/
theorem lookup_eq_none_of_not_mem_keys (l : List (List Char × String))
    (k : List Char) (h : k ∉ l.map Prod.fst) : l.lookup k = none := by
  induction l with
  | nil => rfl
  | cons a t ih =>
    simp only [List.map_cons, List.mem_cons, not_or] at h
    have hne : (k == a.1) = false := beq_eq_false_iff_ne.mpr h.1
    simp [List.lookup, hne, ih h.2]

/-! ## Claims -/

/-- C1 (counterexample): the claim says the empty input string yields a
derived row count of `-1`; in fact `''.split('\n')` is `['']`, so `parseCSV`
returns `0` on the empty string, not `-1`. -/
theorem parseCSV_empty_ne_neg_one : parseCSV "".data = 0 ∧ parseCSV "".data ≠ -1 := by
  decide

/-- C1 (amended): for a CSV text consisting of one header line plus `N` data
lines joined by single newlines (no line containing a newline, and the text
unaffected by trimming), `parseCSV` returns `N`; and for the empty input
string the derived row count equals `0` (not `-1`). -/
theorem parseCSV_rowCount :
    (∀ (header : List Char) (rows : List (List Char)),
        (∀ l ∈ header :: rows, '\n' ∉ l) →
        jsTrim (mkCSVText header rows) = mkCSVText header rows →
        parseCSV (mkCSVText header rows) = rows.length) ∧
    parseCSV "".data = 0 := by
  constructor
  · intro header rows hnl htrim
    unfold parseCSV
    rw [htrim]
    unfold mkCSVText
    rw [jsSplit_joinLines '\n' (header :: rows) (by simp) hnl]
    simp only [List.length_cons]
    push_cast
    ring
  · decide

/-- C1 (witness): a header plus two data rows counts as `2`. -/
theorem parseCSV_rowCount_witness :
    parseCSV (mkCSVText "date,amount".data ["a,1".data, "b,2".data]) = 2 := by
  have h := parseCSV_rowCount.1 "date,amount".data ["a,1".data, "b,2".data]
      (by decide) (by decide)
  simpa using h

/-- C9: the derived row count is invariant under prepending and appending
JS-whitespace (in particular trailing newlines), because the text is trimmed
before splitting. -/
theorem parseCSV_whitespace_invariant (t pre post : List Char)
    (hpre : ∀ c ∈ pre, isJsWs c) (hpost : ∀ c ∈ post, isJsWs c) :
    parseCSV (pre ++ t ++ post) = parseCSV t := by
  unfold parseCSV
  rw [List.append_assoc, jsTrim_ws_append pre (t ++ post) hpre,
      jsTrim_append_ws t post hpost]

/-- C9 (witness): a leading space and a trailing newline do not change the
count. -/
theorem parseCSV_whitespace_invariant_witness :
    parseCSV (" ".data ++ "h\na".data ++ "\n".data) = parseCSV "h\na".data :=
  parseCSV_whitespace_invariant "h\na".data " ".data "\n".data
    (by decide) (by decide)

/-- C10: with no CSV text loaded (`csvData` empty), `analyzeTransactions` is
a complete no-op: the early `return` fires before the agent call (the result
is the unchanged state for every conceivable call outcome, so no flag, stage
label, report or insight moves). -/
theorem analyzeTransactions_noCsv_noop (st : AppState) (o : AgentOutcome)
    (h : st.csvData = []) : analyzeTransactions st o = st := by
  unfold analyzeTransactions
  rw [if_pos h]

/-- C10 (witness): the initial state is fixed under an analysis attempt. -/
theorem analyzeTransactions_noCsv_noop_witness :
    analyzeTransactions initialState .throws = initialState :=
  analyzeTransactions_noCsv_noop initialState .throws rfl

/-- C3: a failed analysis call — thrown, returned failure tag, or a status
other than `'success'` — leaves the prior report and insights exactly as they
were and clears the loading flag. -/
theorem analyzeTransactions_failure_frame (st : AppState) (o : AgentOutcome)
    (hcsv : st.csvData ≠ []) (hfail : callFailed o = true) :
    (analyzeTransactions st o).dashboardData = st.dashboardData ∧
    (analyzeTransactions st o).insights = st.insights ∧
    (analyzeTransactions st o).analyzing = false := by
  unfold analyzeTransactions
  rw [if_neg hcsv]
  cases o with
  | throws => simp
  | returns r =>
    cases r with
    | failure => simp
    | success status mr =>
      have hst : status ≠ "success" := by
        simpa [callFailed, returnedFailure] using hfail
      simp [if_neg hst]

/-- C3 (witness): a thrown analysis call on a loaded state. -/
theorem analyzeTransactions_failure_frame_witness :
    (analyzeTransactions loadedState .throws).dashboardData = loadedState.dashboardData ∧
    (analyzeTransactions loadedState .throws).insights = loadedState.insights ∧
    (analyzeTransactions loadedState .throws).analyzing = false :=
  analyzeTransactions_failure_frame loadedState .throws (by decide) rfl

/-- C4: a successful analysis call whose payload carries a `dashboard_data`
replaces the report wholesale with that payload (for every prior report) and
replaces the insights with the response's insights, or `[]` when absent. -/
theorem analyzeTransactions_success_replaces (st : AppState) (status : String)
    (mr : ManagerAgentResponse) (dd : DashboardData)
    (hcsv : st.csvData ≠ []) (hst : status = "success")
    (hdd : mr.dashboard_data = some dd) :
    (analyzeTransactions st (.returns (.success status mr))).dashboardData = some dd ∧
    (analyzeTransactions st (.returns (.success status mr))).insights
      = mr.insights.getD [] ∧
    (analyzeTransactions st (.returns (.success status mr))).analyzing = false := by
  subst hst
  unfold analyzeTransactions
  rw [if_neg hcsv]
  simp [hdd]

/-- C4 (witness): a successful payload overwrites a loaded state's (empty)
report and insights with the payload's values. -/
theorem analyzeTransactions_success_replaces_witness :
    (analyzeTransactions loadedState
        (.returns (.success "success" sampleResponse))).dashboardData
      = some sampleDashboard ∧
    (analyzeTransactions loadedState
        (.returns (.success "success" sampleResponse))).insights = ["i1"] ∧
    (analyzeTransactions loadedState
        (.returns (.success "success" sampleResponse))).analyzing = false := by
  have h := analyzeTransactions_success_replaces loadedState "success"
      sampleResponse sampleDashboard (by decide) rfl rfl
  simpa [sampleResponse] using h

/-- C2 (counterexample): the claim says a thrown transport error on the chat
path appends exactly one fixed assistant-turn error message; in fact the
`catch` block only logs, so after a thrown call the transcript holds only the
optimistic user turn and zero assistant turns. -/
theorem handleSendMessage_throws_no_error_turn :
    (handleSendMessage chatReadyState .throws).chatMessages =
      [ChatMessage.mk .user "What was my top spend?"] ∧
    ((handleSendMessage chatReadyState .throws).chatMessages.countP
      (fun m => m.role == ChatRole.assistant)) = 0 := by
  decide

/-- C2 (amended): on the chat path the fixed assistant-turn error message is
appended exactly when the agent call returns a failure outcome (`success`
false, or a status other than `'success'`); when the call throws, no
assistant turn is appended — the transcript keeps only the user turn. -/
theorem handleSendMessage_failure_turns (st : AppState) (o : AgentOutcome)
    (hin : jsTrim st.chatInput.data ≠ []) (hdd : st.dashboardData ≠ none) :
    (o = .throws →
      (handleSendMessage st o).chatMessages =
        st.chatMessages ++ [ChatMessage.mk .user st.chatInput]) ∧
    (∀ r, o = .returns r → returnedFailure r = true →
      (handleSendMessage st o).chatMessages =
        st.chatMessages ++ [ChatMessage.mk .user st.chatInput,
                            ChatMessage.mk .assistant chatErrorText]) := by
  have hcond : ¬(jsTrim st.chatInput.data = [] ∨ st.dashboardData = none) := by
    push_neg
    exact ⟨hin, hdd⟩
  constructor
  · intro ho
    subst ho
    unfold handleSendMessage
    rw [if_neg hcond]
  · intro r ho hr
    subst ho
    unfold handleSendMessage
    rw [if_neg hcond]
    cases r with
    | failure => simp
    | success status mr =>
      have hst : status ≠ "success" := by
        simpa [returnedFailure] using hr
      simp [if_neg hst]

/-- C2 (witness): a returned failure tag appends the user turn then the fixed
error turn. -/
theorem handleSendMessage_failure_turns_witness :
    (handleSendMessage chatReadyState (.returns .failure)).chatMessages =
      [ChatMessage.mk .user "What was my top spend?",
       ChatMessage.mk .assistant chatErrorText] := by
  have h := (handleSendMessage_failure_turns chatReadyState (.returns .failure)
      (by decide) (by decide)).2 .failure rfl rfl
  simpa [chatReadyState, loadedState, initialState] using h

/-- C5 (counterexample): the claim says the fallback text is used only when
`query_response` is absent; a present-but-empty `query_response` is falsy in
JS, so the code appends the fallback `'Analysis complete.'` instead of the
(empty) `query_response`. -/
theorem handleSendMessage_empty_query_uses_fallback :
    emptyQueryResponse.query_response = some "" ∧
    (handleSendMessage chatReadyState
        (.returns (.success "success" emptyQueryResponse))).chatMessages =
      [ChatMessage.mk .user "What was my top spend?",
       ChatMessage.mk .assistant "Analysis complete."] ∧
    ("Analysis complete." : String) ≠ "" := by
  decide

/-- C5 (amended): for a non-empty question and an existing report, exactly
one user turn with the question text is appended, and a successful response
appends exactly one assistant turn after it whose content is the response's
`query_response`, or `'Analysis complete.'` when `query_response` is absent
or empty. -/
theorem handleSendMessage_success_turns (st : AppState) (status : String)
    (mr : ManagerAgentResponse)
    (hin : jsTrim st.chatInput.data ≠ []) (hdd : st.dashboardData ≠ none)
    (hst : status = "success") :
    (handleSendMessage st (.returns (.success status mr))).chatMessages =
      st.chatMessages ++
        [ChatMessage.mk .user st.chatInput,
         ChatMessage.mk .assistant
           (match mr.query_response with
            | some s => if s = "" then "Analysis complete." else s
            | none => "Analysis complete.")] ∧
    (handleSendMessage st (.returns (.success status mr))).chatLoading = false := by
  subst hst
  have hcond : ¬(jsTrim st.chatInput.data = [] ∨ st.dashboardData = none) := by
    push_neg
    exact ⟨hin, hdd⟩
  unfold handleSendMessage
  rw [if_neg hcond]
  cases hq : mr.query_response with
  | none => simp [orElseStr, hq]
  | some s =>
    by_cases hs : s = "" <;> simp [orElseStr, hq, hs]

/-- C5 (witness): a non-empty `query_response` lands verbatim as the single
assistant turn after the single user turn. -/
theorem handleSendMessage_success_turns_witness :
    (handleSendMessage chatReadyState
        (.returns (.success "success" queryResponseSample))).chatMessages =
      [ChatMessage.mk .user "What was my top spend?",
       ChatMessage.mk .assistant "You spent most at X."] := by
  have h := (handleSendMessage_success_turns chatReadyState "success"
      queryResponseSample (by decide) (by decide) rfl).1
  simpa [chatReadyState, loadedState, initialState, queryResponseSample] using h

/-- C6: `getScoreColor` returns green (`#00bfa5`) for scores of 75 and
above, yellow (`#ffd700`) for scores in `[50, 75)`, and red (`#ff5252`)
below 50 — the boundaries 75 and 50 belong to the higher band. -/
theorem getScoreColor_bands (score : ℚ) :
    (75 ≤ score → getScoreColor score = "#00bfa5") ∧
    (50 ≤ score ∧ score < 75 → getScoreColor score = "#ffd700") ∧
    (score < 50 → getScoreColor score = "#ff5252") := by
  refine ⟨fun h => ?_, fun h => ?_, fun h => ?_⟩
  · unfold getScoreColor
    rw [if_pos h]
  · obtain ⟨ha, hb⟩ := h
    unfold getScoreColor
    rw [if_neg (not_le.mpr hb), if_pos ha]
  · unfold getScoreColor
    rw [if_neg (not_le.mpr (lt_trans h (by norm_num))), if_neg (not_le.mpr h)]

/-- C6 (witness): the boundaries 75 and 50, and a score below 50. -/
theorem getScoreColor_bands_witness :
    getScoreColor 75 = "#00bfa5" ∧ getScoreColor 50 = "#ffd700" ∧
    getScoreColor 49 = "#ff5252" :=
  ⟨(getScoreColor_bands 75).1 (by norm_num),
   (getScoreColor_bands 50).2.1 (by norm_num),
   (getScoreColor_bands 49).2.2 (by norm_num)⟩

/-- C7: each of the six fixed category keys maps to its fixed color, the six
colors are pairwise distinct, and every category whose normalized lookup key
(lower-cased, first space replaced by an underscore) is not among the six
keys gets the default color `#95a5a6`. -/
theorem getCategoryColor_spec :
    (getCategoryColor "dining" = "#ff6b6b" ∧
     getCategoryColor "shopping" = "#4ecdc4" ∧
     getCategoryColor "bill_payments" = "#45b7d1" ∧
     getCategoryColor "travel" = "#96ceb4" ∧
     getCategoryColor "investments" = "#1a237e" ∧
     getCategoryColor "others" = "#95a5a6") ∧
    (["#ff6b6b", "#4ecdc4", "#45b7d1", "#96ceb4", "#1a237e", "#95a5a6"]
      : List String).Nodup ∧
    (∀ category : String,
      normalizeCategory category.data ∉ categoryColors.map Prod.fst →
      getCategoryColor category = "#95a5a6") := by
  refine ⟨by decide, by decide, ?_⟩
  intro category h
  unfold getCategoryColor
  rw [lookup_eq_none_of_not_mem_keys _ _ h]
  rfl

/-- C7 (witness): an unrecognized category falls back to the default
color. -/
theorem getCategoryColor_spec_witness : getCategoryColor "Groceries" = "#95a5a6" :=
  getCategoryColor_spec.2.2 "Groceries" (by decide)

/-- C8: a file-selection or drop event whose file is not typed `text/csv`
leaves the whole state — in particular the stored file handle, the CSV text
and the row count — unchanged (the code has no error channel, so no error is
surfaced). -/
theorem fileIntake_nonCsv_noop :
    (∀ (st : AppState) (files : Option (List JSFile)) (f : JSFile),
        files.bind List.head? = some f → f.type ≠ "text/csv" →
        handleFileChange st files = st) ∧
    (∀ (st : AppState) (files : List JSFile) (f : JSFile),
        files.head? = some f → f.type ≠ "text/csv" →
        handleDrop st files = st) := by
  constructor
  · intro st files f hf ht
    unfold handleFileChange
    rw [hf]
    simp [ht]
  · intro st files f hf ht
    unfold handleDrop
    rw [hf]
    simp [ht]

/-- C8 (witness): a `text/plain` file is ignored by both intake paths. -/
theorem fileIntake_nonCsv_noop_witness :
    handleFileChange initialState (some [plainTextFile]) = initialState ∧
    handleDrop initialState [plainTextFile] = initialState :=
  ⟨fileIntake_nonCsv_noop.1 initialState (some [plainTextFile]) plainTextFile
      rfl (by decide),
   fileIntake_nonCsv_noop.2 initialState [plainTextFile] plainTextFile
      rfl (by decide)⟩
